import Mathlib

/-!
Verification development for the auto-body-shop SMS conversation service
(src/main.py). The Python module is shallowly embedded: naive datetimes
become natural numbers of microseconds since an epoch, the in-memory
session dictionary becomes a functional map from string keys to sessions,
and the two external collaborators (the damage estimator HTTP call and the
Google Calendar client) become explicit outcome parameters fed to the
handler, with exceptions modelled by Except.
-/

namespace AutoShop

/-! ## Time model

Python naive datetimes are modelled as microseconds since an arbitrary
epoch day boundary (1970-01-01 00:00:00).  Ordering of datetimes is the
ordering of the microsecond counts.  One day is 86400000000 microseconds.
-/

def usPerDay : ℕ := 86400000000

def usPerHour : ℕ := 3600000000

def usPerMinute : ℕ := 60000000

/-- Model of `dt.replace(hour=h, minute=0, second=0, microsecond=0)`:
keep the calendar day of `t` and set the time of day to `h` hours. -/
def replaceHour (t : ℕ) (h : ℕ) : ℕ := (t / usPerDay) * usPerDay + h * usPerHour

/-! ## Slot generator (src/main.py, get_appointment_slots)

The Python function reads the clock itself via `datetime.datetime.now()`;
here the clock reading is the explicit argument `now`, which is the
standard way to embed a clock dependency. -/

/-- Embedding of `get_appointment_slots(n)` from src/main.py.
`tomorrow = now + timedelta(days=1)`; for each hour in `[9, 11, 14, 16]`
build `tomorrow.replace(hour=h, minute=0, second=0, microsecond=0)`, keep
it when it is strictly after `now`, and return the first `n`. -/
def get_appointment_slots (now : ℕ) (n : ℕ) : List ℕ :=
  let tomorrow := now + usPerDay
  let hours : List ℕ := [9, 11, 14, 16]
  ((hours.map (fun h => replaceHour tomorrow h)).filter (fun dt => now < dt)).take n

/-! ## String formatting helpers

`strftime("%a %b %d at %I:%M %p")` and the f-string number formats
`:,.0f` and `:.2f` are implemented below.  Dates use the standard
civil-from-days algorithm; 1970-01-01 (day 0) is a Thursday. -/

/-- Civil date (year, month, day) from a day count since 1970-01-01. -/
def civilFromDays (z : ℕ) : ℕ × ℕ × ℕ :=
  let z2 := z + 719468
  let era := z2 / 146097
  let doe := z2 % 146097
  let yoe := (doe - doe / 1460 + doe / 36524 - doe / 146097) / 365
  let y := yoe + era * 400
  let doy := doe - (365 * yoe + yoe / 4 - yoe / 100)
  let mp := (5 * doy + 2) / 153
  let d := doy - (153 * mp + 2) / 5 + 1
  let m := if mp < 10 then mp + 3 else mp - 9
  (if m ≤ 2 then y + 1 else y, m, d)

/-- Abbreviated weekday name for a day count (day 0 is a Thursday),
as produced by strftime %a in the C locale. -/
def weekdayAbbrev (z : ℕ) : String :=
  (["Thu", "Fri", "Sat", "Sun", "Mon", "Tue", "Wed"].get? (z % 7)).getD ""

/-- Abbreviated month name, strftime %b in the C locale. -/
def monthAbbrev (m : ℕ) : String :=
  (["Jan", "Feb", "Mar", "Apr", "May", "Jun", "Jul", "Aug", "Sep", "Oct",
    "Nov", "Dec"].get? (m - 1)).getD ""

/-- Two-digit zero-padded rendering of a natural number below 100. -/
def pad2 (n : ℕ) : String := if n < 10 then "0" ++ toString n else toString n

/-- Embedding of `dt.strftime("%a %b %d at %I:%M %p")` on a
microsecond-count datetime. -/
def strftimeSlot (t : ℕ) : String :=
  let z := t / usPerDay
  let us := t % usPerDay
  let hh := us / usPerHour
  let mm := us % usPerHour / usPerMinute
  let md := civilFromDays z
  let h12 := if hh % 12 = 0 then 12 else hh % 12
  let ampm := if hh < 12 then "AM" else "PM"
  weekdayAbbrev z ++ " " ++ monthAbbrev md.2.1 ++ " " ++ pad2 md.2.2 ++
    " at " ++ pad2 h12 ++ ":" ++ pad2 mm ++ " " ++ ampm

/-- Round a rational to the nearest integer, ties to even — the rounding
used by Python float formatting. -/
def roundHalfEven (q : ℚ) : ℤ :=
  let f := ⌊q⌋
  let r := q - (f : ℚ)
  if r < 1 / 2 then f
  else if 1 / 2 < r then f + 1
  else if f % 2 = 0 then f else f + 1

/-- Insert thousands separators into a reversed digit list; `k` counts
digits already consumed. -/
def commaGroupAux : List Char → ℕ → List Char
  | [], _ => []
  | c :: cs, k =>
    if 0 < k ∧ k % 3 = 0 then ',' :: c :: commaGroupAux cs (k + 1)
    else c :: commaGroupAux cs (k + 1)

/-- Group the digits of a decimal string with commas every three digits
from the right. -/
def commaGroup (s : String) : String :=
  String.mk ((commaGroupAux s.toList.reverse 0).reverse)

/-- Embedding of the Python format `:,.0f`: round to an integer and group
thousands with commas. -/
def fmtMoney (q : ℚ) : String :=
  let n := roundHalfEven q
  (if n < 0 then "-" else "") ++ commaGroup (toString n.natAbs)

/-- Embedding of the Python format `:.2f`: fixed two decimal places. -/
def fmtFixed2 (q : ℚ) : String :=
  let n := roundHalfEven (q * 100)
  let a := n.natAbs
  (if n < 0 then "-" else "") ++ toString (a / 100) ++ "." ++ pad2 (a % 100)

/-! ## Shop directory (src/main.py, ShopConfig / get_shop) -/

structure ShopConfig where
  id : String
  name : String
  calendar_id : Option String
  webhook_token : String
  deriving Repr, DecidableEq

/-- Python truthiness of an optional string: `None` and `""` are falsy. -/
def truthyOptStr : Option String → Bool
  | none => false
  | some s => !(s == "")

/-- Embedding of `get_shop` from src/main.py.  `shops` is the
`SHOPS_BY_TOKEN` dictionary as an association list from webhook token to
config (`List.lookup` plays the role of dictionary lookup), `token` is the
`token` query parameter (`none` when absent).  `Except.error ()` models
`HTTPException(403)`. -/
def get_shop (shops : List (String × ShopConfig)) (token : Option String) :
    Except Unit ShopConfig :=
  if shops = [] then
    .ok { id := "default", name := "Auto Body Shop", calendar_id := none,
          webhook_token := "" }
  else if !(truthyOptStr token) then .error ()
  else
    match shops.lookup (token.getD "") with
    | none => .error ()
    | some shop => .ok shop

/-! ## Google Calendar collaborator (src/main.py, create_calendar_event)

The service object and the network call are external; their joint outcome
is an explicit parameter.  `noService` covers `get_calendar_service()`
returning `None` (no credentials configured); `created id` a successful
insert; `raises` an exception thrown by the insert call.  The Python body
has no try/except, so `raises` propagates to the caller. -/

inductive CalOutcome where
  | noService
  | created (id : String)
  | raises
  deriving Repr, DecidableEq

/-- Embedding of `create_calendar_event`.  Returns `none` (doing nothing)
when there is no service or the shop has a falsy `calendar_id`; otherwise
the external insert call either returns an event id or raises. -/
def create_calendar_event (shop : ShopConfig) (cal : CalOutcome) :
    Except Unit (Option String) :=
  if cal = .noService ∨ !(truthyOptStr shop.calendar_id) then .ok none
  else
    match cal with
    | .noService => .ok none
    | .created i => .ok (some i)
    | .raises => .error ()

/-! ## Damage estimator (src/main.py, estimate_damage_from_images)

The estimator is the OpenAI HTTP call.  Its outcome is a parameter:
`noApiKey` when `OPENAI_API_KEY` is unset (no call is attempted);
`callFailed` when anything inside the try block raised (network error,
timeout, non-JSON body, JSON that is not an object, missing response
fields) — all of those land in the `except` clause; `response p` when a
JSON object was parsed, with `p` recording which fields it supplied. -/

structure RawPayload where
  severity : Option String
  min_cost : Option ℚ
  max_cost : Option ℚ
  damage_areas : Option (List String)
  damage_types : Option (List String)
  suggested_repairs : Option (List String)
  confidence : Option ℚ
  deriving Repr, DecidableEq

inductive EstOutcome where
  | noApiKey
  | callFailed
  | response (p : RawPayload)
  deriving Repr, DecidableEq

/-- The fully defaulted estimate dictionary. -/
structure DamageEstimate where
  severity : String
  min_cost : ℚ
  max_cost : ℚ
  damage_areas : List String
  damage_types : List String
  suggested_repairs : List String
  confidence : ℚ
  deriving Repr, DecidableEq

/-- Embedding of `estimate_damage_from_images`.  Unconfigured and failed
calls return the two fixed dictionaries from the source; a parsed response
is completed by `setdefault` for each missing key. -/
def estimate_damage_from_images : EstOutcome → DamageEstimate
  | .noApiKey =>
    { severity := "Moderate", min_cost := 450, max_cost := 1200,
      damage_areas := [], damage_types := [], suggested_repairs := [],
      confidence := 0.65 }
  | .callFailed =>
    { severity := "Moderate", min_cost := 450, max_cost := 1200,
      damage_areas := [], damage_types := [], suggested_repairs := [],
      confidence := 0.55 }
  | .response p =>
    { severity := p.severity.getD "Moderate",
      min_cost := p.min_cost.getD 450,
      max_cost := p.max_cost.getD 1200,
      damage_areas := p.damage_areas.getD [],
      damage_types := p.damage_types.getD [],
      suggested_repairs := p.suggested_repairs.getD [],
      confidence := p.confidence.getD 0.70 }

/-! ## Session store (src/main.py, SESSIONS) -/

/-- A session dictionary value: keys `awaiting_time` and `slots`. -/
structure Session where
  awaiting_time : Bool
  slots : List ℕ
  deriving Repr, DecidableEq

/-- The global `SESSIONS` dictionary, as a functional map. -/
def Store : Type := String → Option Session

/-- Dictionary write `SESSIONS[key] = value`. -/
def storePut (st : Store) (key : String) (v : Session) : Store :=
  fun k => if k = key then some v else st k

/-- The session key built at src/main.py line 221:
`f"\x7bshop.id\x7d:\x7bfrom_number\x7d"`. -/
def sessionKey (tenantId senderId : String) : String :=
  tenantId ++ ":" ++ senderId

/-- Python str.isspace for the characters str.strip removes: space, tab,
newline, carriage return, vertical tab, form feed. -/
def pyIsSpace (c : Char) : Bool :=
  c = ' ' || c = '\t' || c = '\n' || c = '\r' || c = '\x0b' || c = '\x0c'

/-- Embedding of Python str.strip() with no argument: drop leading and
trailing whitespace. -/
def pyStrip (s : String) : String :=
  String.mk (((s.data.dropWhile pyIsSpace).reverse.dropWhile pyIsSpace).reverse)

/-! ## Reply texts (src/main.py, sms_webhook)

The TwiML envelope around the message body is transport markup (out of
scope per the spec); a reply is modelled as its single message body
string.  Non-ASCII characters of the source literals are written with
unicode escapes. -/

/-- The booking confirmation message (src/main.py line 242). -/
def bookingReply (chosen : ℕ) : String :=
  "Your appointment is booked for " ++ strftimeSlot chosen ++ "."

/-- The lines of the estimate reply before the numbered slot list
(src/main.py lines 268 to 277). -/
def estimateHeaderLines (shop : ShopConfig) (result : DamageEstimate) :
    List String :=
  let cost_range :=
    "$" ++ fmtMoney result.min_cost ++ " \u00E2\u20AC\u201C $" ++
      fmtMoney result.max_cost
  let areas :=
    if result.damage_areas = [] then "General Damage"
    else String.intercalate ", " result.damage_areas
  let types :=
    if result.damage_types = [] then "Unspecified"
    else String.intercalate ", " result.damage_types
  ["\u00F0\u0178\u201D\u017D AI Damage Estimate for " ++ shop.name,
   "Severity: " ++ result.severity,
   "Damaged Areas: " ++ areas,
   "Damage Types: " ++ types,
   "Estimated Cost: " ++ cost_range,
   "Confidence: " ++ fmtFixed2 result.confidence,
   "",
   "Reply with a number to book an in-person estimate:"]

/-- The numbered slot lines appended by the `for i, s in enumerate(slots, 1)`
loop (src/main.py lines 279 to 280). -/
def slotLines (slots : List ℕ) : List String :=
  slots.enum.map (fun p => toString (p.1 + 1) ++ ") " ++ strftimeSlot p.2)

/-- The full estimate reply body. -/
def estimateReply (shop : ShopConfig) (result : DamageEstimate)
    (slots : List ℕ) : String :=
  String.intercalate "\n" (estimateHeaderLines shop result ++ slotLines slots)

/-- The default introduction reply (src/main.py lines 288 to 294). -/
def introReply (shop : ShopConfig) : String :=
  String.intercalate "\n"
    ["Thanks for messaging " ++ shop.name ++ "! \u00F0\u0178\u2018\u2039",
     "",
     "Send 1\u00E2\u20AC\u201C5 photos of the damage for an instant AI estimate."]

/-! ## The webhook handler (src/main.py, sms_webhook)

External dependencies of one request are collected in `Env`: the calendar
collaborator outcome, the estimator outcome, and the current clock
reading used by `get_appointment_slots`. -/

structure Env where
  calendar : CalOutcome
  estimator : EstOutcome
  now : ℕ

/-- The selection index `int(body) - 1` for bodies in the set
`\x7b"1", "2", "3"\x7d`; `none` when the body is not in the set. -/
def selectionIndex (body : String) : Option ℕ :=
  if body = "1" then some 0
  else if body = "2" then some 1
  else if body = "3" then some 2
  else none

/-- The booking-selection branch (src/main.py lines 227 to 249).  Returns
`some` when the branch returns a response from the handler (which in the
embedding includes the case where the calendar insert raises, modelled as
`Except.error`), and `none` when control falls through to the image
branch — which happens when there is no session, the session is not
awaiting a time, the body is not in the selection set, or the index is
out of range of the current slots. -/
def bookingAttempt (env : Env) (shop : ShopConfig) (from_number body : String)
    (sessions : Store) : Option (Except Unit (String × Store)) :=
  match sessions (sessionKey shop.id from_number) with
  | none => none
  | some session =>
    if session.awaiting_time then
      match selectionIndex body with
      | none => none
      | some idx =>
        if h : idx < session.slots.length then
          match create_calendar_event shop env.calendar with
          | .error e => some (.error e)
          | .ok _ =>
            some (.ok (bookingReply (session.slots.get ⟨idx, h⟩),
              storePut sessions (sessionKey shop.id from_number)
                { session with awaiting_time := false }))
        else none
    else none

/-- Embedding of the `sms_webhook` handler body after tenant resolution.
`raw_body` is the `Body` form field (already defaulted to `""`), and
`image_urls` the list produced by `extract_image_urls`.  The result is
either `Except.error ()` — an exception escaping the handler, producing a
transport-level error and leaving `SESSIONS` unchanged — or the reply
body together with the updated store. -/
def sms_webhook (env : Env) (shop : ShopConfig) (from_number raw_body : String)
    (image_urls : List String) (sessions : Store) :
    Except Unit (String × Store) :=
  match bookingAttempt env shop from_number (pyStrip raw_body) sessions with
  | some r => r
  | none =>
    if image_urls ≠ [] then
      .ok (estimateReply shop (estimate_damage_from_images env.estimator)
             (get_appointment_slots env.now 3),
        storePut sessions (sessionKey shop.id from_number)
          { awaiting_time := true, slots := get_appointment_slots env.now 3 })
    else
      .ok (introReply shop, sessions)

/-! ## Spec-side definitions

These definitions transcribe wording of the spec (candidate-hour set on
the following day, validity bounds, the session invariant) so that the
source-side functions can be compared against them. -/

/-- The candidate list in the words of the spec: the hours 9, 11, 14 and
16 on the calendar day following the day of `now`. -/
def candidateSlots (now : ℕ) : List ℕ :=
  [9, 11, 14, 16].map (fun h => (now / usPerDay + 1) * usPerDay + h * usPerHour)

/-- The structural validity predicate of the spec for a normalized
estimate: a non-negative minimum cost, minimum at most maximum, and a
confidence within the unit interval. -/
def ValidBounds (e : DamageEstimate) : Prop :=
  0 ≤ e.min_cost ∧ e.min_cost ≤ e.max_cost ∧ 0 ≤ e.confidence ∧ e.confidence ≤ 1

/-- The session-store invariant of the spec: slots are non-empty whenever
a selection is awaited. -/
def StoreInv (st : Store) : Prop :=
  ∀ k s, st k = some s → s.awaiting_time = true → s.slots ≠ []

/-! ## Lemmas about the slot generator -/

lemma replaceHour_tomorrow (now h : ℕ) :
    replaceHour (now + usPerDay) h = (now / usPerDay + 1) * usPerDay + h * usPerHour := by
  unfold replaceHour
  rw [Nat.add_div_right _ (by norm_num [usPerDay])]

lemma now_lt_replaceHour_tomorrow (now h : ℕ) :
    now < replaceHour (now + usPerDay) h := by
  rw [replaceHour_tomorrow]
  simp only [usPerDay, usPerHour]
  omega

lemma mem_candidateSlots_gt (now s : ℕ) (hs : s ∈ candidateSlots now) : now < s := by
  unfold candidateSlots at hs
  simp only [List.mem_map] at hs
  obtain ⟨h, _, rfl⟩ := hs
  have := now_lt_replaceHour_tomorrow now h
  rwa [replaceHour_tomorrow] at this

lemma map_candidates (now : ℕ) :
    [9, 11, 14, 16].map (fun h => replaceHour (now + usPerDay) h) = candidateSlots now := by
  simp [candidateSlots, replaceHour_tomorrow]

lemma get_appointment_slots_eq (now n : ℕ) :
    get_appointment_slots now n = (candidateSlots now).take n := by
  show (([9, 11, 14, 16].map (fun h => replaceHour (now + usPerDay) h)).filter
      (fun dt => now < dt)).take n = (candidateSlots now).take n
  rw [map_candidates]
  congr 1
  apply List.filter_eq_self.mpr
  intro s hs
  simpa using mem_candidateSlots_gt now s hs

lemma get_appointment_slots_length (now cnt : ℕ) :
    (get_appointment_slots now cnt).length = min cnt 4 := by
  rw [get_appointment_slots_eq, List.length_take]
  rfl

lemma candidateSlots_pairwise (now : ℕ) :
    List.Pairwise (· < ·) (candidateSlots now) := by
  unfold candidateSlots
  simp only [List.map_cons, List.map_nil]
  refine List.Pairwise.cons ?_ (List.Pairwise.cons ?_ (List.Pairwise.cons ?_ ?_)) <;>
    simp [usPerHour, usPerDay]

/-- Claim C5: for a fixed clock reading, slot generation returns exactly a
prefix of the strictly-after-now candidates among the hours 9, 11, 14, 16
of the following calendar day: the result equals the spec-side candidate
list filtered to times strictly after now and truncated to the requested
count, it is strictly ascending, has at most the requested length, every
returned slot is strictly after now and belongs to the candidate list of
the following day, and the generator is deterministic for a fixed now. -/
theorem slot_generation_spec (now cnt : ℕ) :
    get_appointment_slots now cnt =
      ((candidateSlots now).filter (fun dt => now < dt)).take cnt ∧
    List.Pairwise (· < ·) (get_appointment_slots now cnt) ∧
    (get_appointment_slots now cnt).length ≤ cnt ∧
    (∀ s ∈ get_appointment_slots now cnt, now < s ∧ s ∈ candidateSlots now) ∧
    get_appointment_slots now cnt = get_appointment_slots now cnt := by
  have hfilter : (candidateSlots now).filter (fun dt => now < dt) = candidateSlots now :=
    List.filter_eq_self.mpr (fun s hs => by
      simpa using mem_candidateSlots_gt now s hs)
  have heq := get_appointment_slots_eq now cnt
  refine ⟨by rw [hfilter, heq], ?_, ?_, ?_, rfl⟩
  · rw [heq]
    exact List.Pairwise.sublist (List.take_sublist _ _) (candidateSlots_pairwise now)
  · rw [heq, List.length_take]
    exact min_le_left _ _
  · intro s hs
    rw [heq] at hs
    have hmem : s ∈ candidateSlots now := (List.take_sublist _ _).subset hs
    exact ⟨mem_candidateSlots_gt now s hmem, hmem⟩

/-- Witness for claim C5 at a concrete clock reading: day 0 at 00:00,
count 3; the first returned slot is 09:00 on day 1. -/
theorem slot_generation_spec_witness :
    0 < usPerDay + 9 * usPerHour ∧ (usPerDay + 9 * usPerHour) ∈ candidateSlots 0 :=
  (slot_generation_spec 0 3).2.2.2.1 (usPerDay + 9 * usPerHour) (by decide)

/-- Claim C10: the strictly-after-now filter in the slot generator never
removes a candidate — every candidate lies on the following calendar day
and so is strictly later than now — hence the generator returns
min 4 count slots, and exactly 3 for the count 3 used by the handler. -/
theorem slot_filter_vacuous (now : ℕ) :
    ([9, 11, 14, 16].map (fun h => replaceHour (now + usPerDay) h)).filter
        (fun dt => now < dt) =
      [9, 11, 14, 16].map (fun h => replaceHour (now + usPerDay) h) ∧
    (get_appointment_slots now 3).length = 3 ∧
    ∀ cnt, (get_appointment_slots now cnt).length = min cnt 4 := by
  refine ⟨?_, by simpa using get_appointment_slots_length now 3,
    get_appointment_slots_length now⟩
  exact List.filter_eq_self.mpr (fun s hs => by
    simp only [List.mem_map] at hs
    obtain ⟨h, _, rfl⟩ := hs
    simpa using now_lt_replaceHour_tomorrow now h)

/-! ## Theorems about the estimator normalization -/

/-- Counterexample for claim C2: a well-formed estimator payload that
supplies min_cost 2000 and max_cost 100 is passed through without any
clamping or validation, so the normalized estimate violates
min_cost ≤ max_cost. -/
theorem normalizer_bounds_counterexample :
    (estimate_damage_from_images
      (.response ⟨none, some 2000, some 100, none, none, none, none⟩)).min_cost = 2000 ∧
    (estimate_damage_from_images
      (.response ⟨none, some 2000, some 100, none, none, none, none⟩)).max_cost = 100 ∧
    ¬ ValidBounds (estimate_damage_from_images
      (.response ⟨none, some 2000, some 100, none, none, none, none⟩)) := by
  refine ⟨rfl, rfl, fun h => ?_⟩
  have h21 := h.2.1
  simp only [estimate_damage_from_images, Option.getD_some] at h21
  norm_num at h21

/-- Claim C2, amended: the normalization pipeline is total (it is a plain
function of the estimator outcome, mirroring the fact that every failure
mode of the Python call lands in the catch-all except clause), and the
bound conditions hold for the unconfigured estimate, for the call-failure
estimate, and for any payload that omits the numeric fields; numeric
fields supplied by the estimator are passed through unvalidated, so for
payloads that supply them the bounds hold only if the supplied values
already satisfy them. -/
theorem normalizer_amended_spec :
    ValidBounds (estimate_damage_from_images .noApiKey) ∧
    ValidBounds (estimate_damage_from_images .callFailed) ∧
    (∀ p : RawPayload, p.min_cost = none → p.max_cost = none → p.confidence = none →
      ValidBounds (estimate_damage_from_images (.response p))) ∧
    (∀ p : RawPayload,
      (estimate_damage_from_images (.response p)).min_cost = p.min_cost.getD 450 ∧
      (estimate_damage_from_images (.response p)).max_cost = p.max_cost.getD 1200 ∧
      (estimate_damage_from_images (.response p)).confidence = p.confidence.getD 0.70) := by
  refine ⟨by constructor <;> norm_num [estimate_damage_from_images, ValidBounds],
    by constructor <;> norm_num [estimate_damage_from_images, ValidBounds],
    ?_, fun p => ⟨rfl, rfl, rfl⟩⟩
  intro p h1 h2 h3
  constructor <;> norm_num [estimate_damage_from_images, ValidBounds, h1, h2, h3]

/-- Witness for claim C2 (amended) at the empty payload: every field
missing, all bounds hold. -/
theorem normalizer_amended_spec_witness :
    ValidBounds (estimate_damage_from_images
      (.response ⟨none, none, none, none, none, none, none⟩)) :=
  normalizer_amended_spec.2.2.1 ⟨none, none, none, none, none, none, none⟩ rfl rfl rfl

/-- Claim C6: the three failure-mode confidences are 0.65 (unconfigured,
fixed neutral estimate without a call), 0.55 (call failed), 0.70 (parsed
but missing confidence); and each missing field of a parsed payload
defaults to Moderate severity, 450/1200 costs, and empty lists. -/
theorem estimator_defaults :
    estimate_damage_from_images .noApiKey =
      { severity := "Moderate", min_cost := 450, max_cost := 1200,
        damage_areas := [], damage_types := [], suggested_repairs := [],
        confidence := 0.65 } ∧
    estimate_damage_from_images .callFailed =
      { severity := "Moderate", min_cost := 450, max_cost := 1200,
        damage_areas := [], damage_types := [], suggested_repairs := [],
        confidence := 0.55 } ∧
    (∀ p : RawPayload, p.severity = none →
      (estimate_damage_from_images (.response p)).severity = "Moderate") ∧
    (∀ p : RawPayload, p.min_cost = none →
      (estimate_damage_from_images (.response p)).min_cost = 450) ∧
    (∀ p : RawPayload, p.max_cost = none →
      (estimate_damage_from_images (.response p)).max_cost = 1200) ∧
    (∀ p : RawPayload, p.damage_areas = none →
      (estimate_damage_from_images (.response p)).damage_areas = []) ∧
    (∀ p : RawPayload, p.damage_types = none →
      (estimate_damage_from_images (.response p)).damage_types = []) ∧
    (∀ p : RawPayload, p.suggested_repairs = none →
      (estimate_damage_from_images (.response p)).suggested_repairs = []) ∧
    (∀ p : RawPayload, p.confidence = none →
      (estimate_damage_from_images (.response p)).confidence = 0.70) := by
  refine ⟨rfl, rfl, ?_, ?_, ?_, ?_, ?_, ?_, ?_⟩ <;>
    exact fun p h => by simp [estimate_damage_from_images, h]

/-- Witness for claim C6 at the empty payload: the defaulted confidence
is 0.70. -/
theorem estimator_defaults_witness :
    (estimate_damage_from_images
      (.response ⟨none, none, none, none, none, none, none⟩)).confidence = 0.70 :=
  estimator_defaults.2.2.2.2.2.2.2.2 ⟨none, none, none, none, none, none, none⟩ rfl

/-! ## Theorems about the shop directory -/

/-- Counterexample for claim C7: a configured tenant whose webhook token
is the empty string is unreachable — the request token matches the
directory entry, yet get_shop rejects the request, because the falsiness
test `not token` in the source conflates an empty supplied token with an
absent one. -/
theorem get_shop_empty_token_counterexample :
    (([("", ShopConfig.mk "t1" "Shop" none "")] : List (String × ShopConfig)).lookup ""
        = some (ShopConfig.mk "t1" "Shop" none "")) ∧
    get_shop [("", ShopConfig.mk "t1" "Shop" none "")] (some "") = .error () := by
  exact ⟨rfl, rfl⟩

/-- Claim C7, amended: with a non-empty directory, any request whose
non-empty token is found in the directory resolves to the matching
tenant, while a request with an absent token, an empty token, or a token
not in the directory is rejected; with an empty directory every request
resolves to the implicit default tenant regardless of its token. -/
theorem get_shop_spec :
    (∀ (shops : List (String × ShopConfig)) (cfg : ShopConfig) (t : String),
      shops ≠ [] → t ≠ "" → shops.lookup t = some cfg →
      get_shop shops (some t) = .ok cfg) ∧
    (∀ shops : List (String × ShopConfig),
      shops ≠ [] → get_shop shops none = .error ()) ∧
    (∀ (shops : List (String × ShopConfig)) (t : String),
      shops ≠ [] → shops.lookup t = none → get_shop shops (some t) = .error ()) ∧
    (∀ shops : List (String × ShopConfig),
      shops ≠ [] → get_shop shops (some "") = .error ()) ∧
    (∀ token : Option String,
      get_shop [] token =
        .ok { id := "default", name := "Auto Body Shop", calendar_id := none,
              webhook_token := "" }) := by
  refine ⟨?_, ?_, ?_, ?_, fun token => rfl⟩
  · intro shops cfg t hne ht hlk
    simp [get_shop, hne, truthyOptStr, ht, hlk]
  · intro shops hne
    simp [get_shop, hne, truthyOptStr]
  · intro shops t hne hlk
    by_cases ht : t = ""
    · subst ht; simp [get_shop, hne, truthyOptStr]
    · simp [get_shop, hne, truthyOptStr, ht, hlk]
  · intro shops hne
    simp [get_shop, hne, truthyOptStr]

/-- Witness for claim C7 (amended): a one-tenant directory resolves its
own token. -/
theorem get_shop_spec_witness :
    get_shop [("tokA", ShopConfig.mk "a" "Shop A" none "tokA")] (some "tokA") =
      .ok (ShopConfig.mk "a" "Shop A" none "tokA") :=
  get_shop_spec.1 [("tokA", ShopConfig.mk "a" "Shop A" none "tokA")]
    (ShopConfig.mk "a" "Shop A" none "tokA") "tokA"
    (by simp) (by simp) (by simp)

/-! ## Lemmas about the webhook handler -/

lemma bookingAttempt_ok (env : Env) (shop : ShopConfig) (sender body : String)
    (sessions : Store) (session : Session) (idx : ℕ) (r : Option String)
    (hsess : sessions (sessionKey shop.id sender) = some session)
    (hawait : session.awaiting_time = true)
    (hidx : selectionIndex body = some idx)
    (hlt : idx < session.slots.length)
    (hcal : create_calendar_event shop env.calendar = .ok r) :
    bookingAttempt env shop sender body sessions =
      some (.ok (bookingReply (session.slots.get ⟨idx, hlt⟩),
        storePut sessions (sessionKey shop.id sender)
          { session with awaiting_time := false })) := by
  simp only [bookingAttempt]
  rw [hsess]
  simp [hawait, hidx, hcal, hlt]

lemma bookingAttempt_raises (env : Env) (shop : ShopConfig) (sender body : String)
    (sessions : Store) (session : Session) (idx : ℕ)
    (hsess : sessions (sessionKey shop.id sender) = some session)
    (hawait : session.awaiting_time = true)
    (hidx : selectionIndex body = some idx)
    (hlt : idx < session.slots.length)
    (hcal : create_calendar_event shop env.calendar = .error ()) :
    bookingAttempt env shop sender body sessions = some (.error ()) := by
  simp only [bookingAttempt]
  rw [hsess]
  simp [hawait, hidx, hcal, hlt]

lemma bookingAttempt_none_noSelection (env : Env) (shop : ShopConfig)
    (sender body : String) (sessions : Store)
    (hsel : selectionIndex body = none) :
    bookingAttempt env shop sender body sessions = none := by
  simp only [bookingAttempt]
  cases hs : sessions (sessionKey shop.id sender) with
  | none => rfl
  | some session =>
    cases ha : session.awaiting_time <;> simp [ha, hsel]

lemma bookingAttempt_none_outOfRange (env : Env) (shop : ShopConfig)
    (sender body : String) (sessions : Store) (session : Session) (idx : ℕ)
    (hsess : sessions (sessionKey shop.id sender) = some session)
    (hawait : session.awaiting_time = true)
    (hidx : selectionIndex body = some idx)
    (hge : session.slots.length ≤ idx) :
    bookingAttempt env shop sender body sessions = none := by
  simp only [bookingAttempt]
  rw [hsess]
  simp [hawait, hidx, Nat.not_lt.mpr hge]

/-- Inversion: a booking attempt that returns a reply read the current
session at the handler key, found it awaiting, selected an in-range index
of its current slot list, and confirmed exactly that slot. -/
lemma bookingAttempt_some_ok_inv (env : Env) (shop : ShopConfig)
    (sender body : String) (sessions : Store) (reply : String) (st2 : Store)
    (h : bookingAttempt env shop sender body sessions = some (.ok (reply, st2))) :
    ∃ (session : Session) (idx : ℕ) (hlt : idx < session.slots.length),
      sessions (sessionKey shop.id sender) = some session ∧
      session.awaiting_time = true ∧
      selectionIndex body = some idx ∧
      reply = bookingReply (session.slots.get ⟨idx, hlt⟩) ∧
      st2 = storePut sessions (sessionKey shop.id sender)
        { session with awaiting_time := false } := by
  unfold bookingAttempt at h
  split at h
  · exact absurd h (by simp)
  · rename_i session hs
    split at h
    · rename_i ha
      split at h
      · exact absurd h (by simp)
      · rename_i idx hsel
        split at h
        · rename_i hlt
          split at h
          · exact absurd h (by simp)
          · simp only [Option.some.injEq, Except.ok.injEq, Prod.mk.injEq] at h
            exact ⟨session, idx, hlt, hs, by simpa using ha, hsel, h.1.symm, h.2.symm⟩
        · exact absurd h (by simp)
    · exact absurd h (by simp)

/-- Inversion: a booking attempt that returned at all (reply or raised
calendar exception) was looking at an awaiting session with an in-range
selection. -/
lemma bookingAttempt_some_inv (env : Env) (shop : ShopConfig)
    (sender body : String) (sessions : Store) (out : Except Unit (String × Store))
    (h : bookingAttempt env shop sender body sessions = some out) :
    ∃ (session : Session) (idx : ℕ),
      sessions (sessionKey shop.id sender) = some session ∧
      session.awaiting_time = true ∧
      selectionIndex body = some idx ∧
      idx < session.slots.length := by
  unfold bookingAttempt at h
  split at h
  · exact absurd h (by simp)
  · rename_i session hs
    split at h
    · rename_i ha
      split at h
      · exact absurd h (by simp)
      · rename_i idx hsel
        split at h
        · rename_i hlt
          exact ⟨session, idx, hs, by simpa using ha, hsel, hlt⟩
        · exact absurd h (by simp)
    · exact absurd h (by simp)

lemma sms_webhook_of_bookingAttempt (env : Env) (shop : ShopConfig)
    (sender raw_body : String) (urls : List String) (sessions : Store)
    (r : Except Unit (String × Store))
    (h : bookingAttempt env shop sender (pyStrip raw_body) sessions = some r) :
    sms_webhook env shop sender raw_body urls sessions = r := by
  simp only [sms_webhook]
  rw [h]

lemma sms_webhook_image (env : Env) (shop : ShopConfig)
    (sender raw_body : String) (urls : List String) (sessions : Store)
    (himg : urls ≠ [])
    (hnb : bookingAttempt env shop sender (pyStrip raw_body) sessions = none) :
    sms_webhook env shop sender raw_body urls sessions =
      .ok (estimateReply shop (estimate_damage_from_images env.estimator)
             (get_appointment_slots env.now 3),
           storePut sessions (sessionKey shop.id sender)
             { awaiting_time := true, slots := get_appointment_slots env.now 3 }) := by
  simp only [sms_webhook]
  rw [hnb, if_pos himg]

lemma sms_webhook_default (env : Env) (shop : ShopConfig)
    (sender raw_body : String) (sessions : Store)
    (hnb : bookingAttempt env shop sender (pyStrip raw_body) sessions = none) :
    sms_webhook env shop sender raw_body [] sessions =
      .ok (introReply shop, sessions) := by
  simp only [sms_webhook]
  rw [hnb]
  simp

/-! ## Lemmas about number formatting -/

lemma pad2_length (k : ℕ) (h : k < 100) : (pad2 k).length = 2 := by
  interval_cases k <;> rfl

lemma fmtFixed2_two_decimals (q : ℚ) :
    ∃ s k, fmtFixed2 q = s ++ "." ++ pad2 k ∧ k < 100 ∧ (pad2 k).length = 2 := by
  refine ⟨(if roundHalfEven (q * 100) < 0 then "-" else "") ++
      toString ((roundHalfEven (q * 100)).natAbs / 100),
    (roundHalfEven (q * 100)).natAbs % 100, rfl,
    Nat.mod_lt _ (by norm_num), pad2_length _ (Nat.mod_lt _ (by norm_num))⟩

/-! ## Claim theorems about the conversation transitions -/

/-- Claim C3: from a session awaiting a time with three slots, the body
"2" books the second slot — the session flips to not awaiting with the
same slots and the reply names the second slot — while the body "4",
which is outside the selection set, falls through to the generic
introduction reply with the store unchanged; and in general a selection
body whose index is outside the current slot list falls through to the
generic introduction reply with the store unchanged rather than
re-prompting. -/
theorem selection_transition :
    (∀ (env : Env) (shop : ShopConfig) (sender : String) (a b c : ℕ)
        (sessions : Store),
      sessions (sessionKey shop.id sender) = some ⟨true, [a, b, c]⟩ →
      (∃ r, create_calendar_event shop env.calendar = .ok r) →
      sms_webhook env shop sender "2" [] sessions =
        .ok (bookingReply b,
          storePut sessions (sessionKey shop.id sender) ⟨false, [a, b, c]⟩)) ∧
    (∀ (env : Env) (shop : ShopConfig) (sender : String) (a b c : ℕ)
        (sessions : Store),
      sessions (sessionKey shop.id sender) = some ⟨true, [a, b, c]⟩ →
      sms_webhook env shop sender "4" [] sessions = .ok (introReply shop, sessions)) ∧
    (∀ (env : Env) (shop : ShopConfig) (sender raw_body : String)
        (sessions : Store) (session : Session) (idx : ℕ),
      sessions (sessionKey shop.id sender) = some session →
      session.awaiting_time = true →
      selectionIndex (pyStrip raw_body) = some idx →
      session.slots.length ≤ idx →
      sms_webhook env shop sender raw_body [] sessions =
        .ok (introReply shop, sessions)) := by
  refine ⟨?_, ?_, ?_⟩
  · intro env shop sender a b c sessions hsess hcal
    obtain ⟨r, hr⟩ := hcal
    have htrim : pyStrip ("2" : String) = "2" := rfl
    have hba := bookingAttempt_ok env shop sender "2" sessions ⟨true, [a, b, c]⟩ 1 r
      hsess rfl rfl (by simp) hr
    exact (sms_webhook_of_bookingAttempt env shop sender "2" [] sessions _
      (htrim ▸ hba)).trans (by simp)
  · intro env shop sender a b c sessions hsess
    have htrim : pyStrip ("4" : String) = "4" := rfl
    exact sms_webhook_default env shop sender "4" sessions
      (htrim ▸ bookingAttempt_none_noSelection env shop sender "4" sessions rfl)
  · intro env shop sender raw_body sessions session idx hsess hawait hsel hge
    exact sms_webhook_default env shop sender raw_body sessions
      (bookingAttempt_none_outOfRange env shop sender (pyStrip raw_body) sessions
        session idx hsess hawait hsel hge)

/-- Witness for claim C3: one concrete session with three slots on day 1;
body "2" books the 11:00 slot. -/
theorem selection_transition_witness :
    sms_webhook ⟨CalOutcome.noService, EstOutcome.noApiKey, 0⟩
        ⟨"s1", "Shop One", none, "tok1"⟩ "+15550001111" "2" []
        (storePut (fun _ => none) (sessionKey "s1" "+15550001111")
          ⟨true, [usPerDay + 9 * usPerHour, usPerDay + 11 * usPerHour,
                  usPerDay + 14 * usPerHour]⟩) =
      .ok (bookingReply (usPerDay + 11 * usPerHour),
        storePut (storePut (fun _ => none) (sessionKey "s1" "+15550001111")
          ⟨true, [usPerDay + 9 * usPerHour, usPerDay + 11 * usPerHour,
                  usPerDay + 14 * usPerHour]⟩) (sessionKey "s1" "+15550001111")
          ⟨false, [usPerDay + 9 * usPerHour, usPerDay + 11 * usPerHour,
                   usPerDay + 14 * usPerHour]⟩) :=
  selection_transition.1 ⟨CalOutcome.noService, EstOutcome.noApiKey, 0⟩
    ⟨"s1", "Shop One", none, "tok1"⟩ "+15550001111"
    (usPerDay + 9 * usPerHour) (usPerDay + 11 * usPerHour)
    (usPerDay + 14 * usPerHour) _ (by simp [storePut]) ⟨none, rfl⟩

/-- Claim C4: an inbound message carrying image urls that does not take
the booking branch overwrites the session wholesale with an awaiting
session holding the 3 freshly generated slots, and replies with the
formatted summary followed by one numbered line per generated slot; the
summary lines carry the severity, the areas joined by commas or General
Damage when empty, the types joined by commas or Unspecified when empty,
the cost range, the confidence rendered with exactly two decimals, and
the prompt to reply with a number. -/
theorem image_transition :
    (∀ (env : Env) (shop : ShopConfig) (sender raw_body : String)
        (urls : List String) (sessions : Store),
      urls ≠ [] →
      bookingAttempt env shop sender (pyStrip raw_body) sessions = none →
      sms_webhook env shop sender raw_body urls sessions =
        .ok (estimateReply shop (estimate_damage_from_images env.estimator)
               (get_appointment_slots env.now 3),
             storePut sessions (sessionKey shop.id sender)
               ⟨true, get_appointment_slots env.now 3⟩) ∧
      (get_appointment_slots env.now 3).length = 3) ∧
    (∀ (shop : ShopConfig) (est : DamageEstimate) (slots : List ℕ),
      (slotLines slots).length = slots.length ∧
      estimateReply shop est slots =
        String.intercalate "\n" (estimateHeaderLines shop est ++ slotLines slots) ∧
      (estimateHeaderLines shop est).get? 1 = some ("Severity: " ++ est.severity) ∧
      (estimateHeaderLines shop est).get? 2 =
        some ("Damaged Areas: " ++ (if est.damage_areas = [] then "General Damage"
          else String.intercalate ", " est.damage_areas)) ∧
      (estimateHeaderLines shop est).get? 3 =
        some ("Damage Types: " ++ (if est.damage_types = [] then "Unspecified"
          else String.intercalate ", " est.damage_types)) ∧
      (estimateHeaderLines shop est).get? 4 =
        some ("Estimated Cost: " ++ ("$" ++ fmtMoney est.min_cost ++
          " \u00E2\u20AC\u201C $" ++ fmtMoney est.max_cost)) ∧
      (estimateHeaderLines shop est).get? 5 =
        some ("Confidence: " ++ fmtFixed2 est.confidence) ∧
      (estimateHeaderLines shop est).get? 7 =
        some "Reply with a number to book an in-person estimate:") ∧
    (∀ q : ℚ, ∃ s k, fmtFixed2 q = s ++ "." ++ pad2 k ∧ k < 100 ∧
      (pad2 k).length = 2) := by
  refine ⟨?_, ?_, fmtFixed2_two_decimals⟩
  · intro env shop sender raw_body urls sessions himg hnb
    exact ⟨sms_webhook_image env shop sender raw_body urls sessions himg hnb,
      by simpa using get_appointment_slots_length env.now 3⟩
  · intro shop est slots
    refine ⟨?_, rfl, rfl, ?_, ?_, rfl, rfl, rfl⟩
    · simp [slotLines]
    · by_cases h : est.damage_areas = [] <;> simp [estimateHeaderLines, h]
    · by_cases h : est.damage_types = [] <;> simp [estimateHeaderLines, h]

/-- Witness for claim C4 at a concrete message: one image url, no
existing session, the unconfigured-estimator outcome, clock at the
epoch. -/
theorem image_transition_witness :
    sms_webhook ⟨CalOutcome.noService, EstOutcome.noApiKey, 0⟩
        ⟨"s1", "Shop One", none, "tok1"⟩ "+15550001111" "" ["http://img0"]
        (fun _ => none) =
      .ok (estimateReply ⟨"s1", "Shop One", none, "tok1"⟩
             (estimate_damage_from_images EstOutcome.noApiKey)
             (get_appointment_slots 0 3),
           storePut (fun _ => none) (sessionKey "s1" "+15550001111")
             ⟨true, get_appointment_slots 0 3⟩) ∧
    (get_appointment_slots 0 3).length = 3 :=
  (image_transition.1 ⟨CalOutcome.noService, EstOutcome.noApiKey, 0⟩
    ⟨"s1", "Shop One", none, "tok1"⟩ "+15550001111" "" ["http://img0"]
    (fun _ => none) (by simp) rfl)

/-! ## Store-shape lemmas for the handler -/

/-- The three possible stores a successful handler run can leave behind:
unchanged, the current session flipped to not awaiting, or a wholesale
replacement with a fresh awaiting session. -/
lemma sms_webhook_store_cases (env : Env) (shop : ShopConfig)
    (sender raw_body : String) (urls : List String) (sessions : Store)
    (reply : String) (st2 : Store)
    (h : sms_webhook env shop sender raw_body urls sessions = .ok (reply, st2)) :
    st2 = sessions ∨
    (∃ session : Session, sessions (sessionKey shop.id sender) = some session ∧
      st2 = storePut sessions (sessionKey shop.id sender)
        { session with awaiting_time := false }) ∨
    st2 = storePut sessions (sessionKey shop.id sender)
      ⟨true, get_appointment_slots env.now 3⟩ := by
  unfold sms_webhook at h
  split at h
  · rename_i r hba
    rw [h] at hba
    obtain ⟨session, idx, hlt, hs, ha, hsel, hrep, hst⟩ :=
      bookingAttempt_some_ok_inv env shop sender (pyStrip raw_body) sessions
        reply st2 hba
    exact Or.inr (Or.inl ⟨session, hs, hst⟩)
  · split at h
    · simp only [Except.ok.injEq, Prod.mk.injEq] at h
      exact Or.inr (Or.inr h.2.symm)
    · simp only [Except.ok.injEq, Prod.mk.injEq] at h
      exact Or.inl h.2.symm

/-- The reply of the handler depends on the session store only through
the entry at the handler key. -/
lemma bookingAttempt_fst_congr (env : Env) (shop : ShopConfig)
    (sender body : String) (sessions sessions2 : Store)
    (h : sessions (sessionKey shop.id sender) =
      sessions2 (sessionKey shop.id sender)) :
    (bookingAttempt env shop sender body sessions).map (Except.map Prod.fst) =
      (bookingAttempt env shop sender body sessions2).map (Except.map Prod.fst) := by
  unfold bookingAttempt
  rw [h]
  cases sessions2 (sessionKey shop.id sender) with
  | none => rfl
  | some session =>
    cases ha : session.awaiting_time
    · simp [ha]
    · simp only [ha, if_true]
      cases hsel : selectionIndex body with
      | none => rfl
      | some idx =>
        by_cases hlt : idx < session.slots.length
        · simp only [dif_pos hlt]
          cases hcal : create_calendar_event shop env.calendar <;> rfl
        · simp only [dif_neg hlt]

/-! ## Claim theorems: invariant, isolation, calendar failure -/

/-- Claim C8: if every stored session satisfies "awaiting implies
non-empty slots", then the store after any successful handler run
satisfies it again (session creation, estimate delivery, booking
selection, and the default fall-through are the only transitions); and a
booking reply always names the slot found at the selected index of the
current session entry at the handler key, never a slot of another list. -/
theorem session_invariant :
    (∀ (env : Env) (shop : ShopConfig) (sender raw_body : String)
        (urls : List String) (sessions : Store),
      StoreInv sessions →
      ∀ reply st2, sms_webhook env shop sender raw_body urls sessions =
        .ok (reply, st2) → StoreInv st2) ∧
    (∀ (env : Env) (shop : ShopConfig) (sender body : String)
        (sessions : Store) (reply : String) (st2 : Store),
      bookingAttempt env shop sender body sessions = some (.ok (reply, st2)) →
      ∃ (session : Session) (idx : ℕ) (hlt : idx < session.slots.length),
        sessions (sessionKey shop.id sender) = some session ∧
        session.awaiting_time = true ∧
        selectionIndex body = some idx ∧
        reply = bookingReply (session.slots.get ⟨idx, hlt⟩) ∧
        st2 = storePut sessions (sessionKey shop.id sender)
          { session with awaiting_time := false }) := by
  refine ⟨?_, bookingAttempt_some_ok_inv⟩
  intro env shop sender raw_body urls sessions hinv reply st2 h
  rcases sms_webhook_store_cases env shop sender raw_body urls sessions reply st2 h
    with rfl | ⟨session, hs, rfl⟩ | rfl
  · exact hinv
  · intro k s hk ha
    by_cases hkey : k = sessionKey shop.id sender
    · subst hkey
      simp [storePut] at hk
      rw [← hk] at ha
      simp at ha
    · simp only [storePut, if_neg hkey] at hk
      exact hinv k s hk ha
  · intro k s hk ha
    by_cases hkey : k = sessionKey shop.id sender
    · subst hkey
      simp [storePut] at hk
      rw [← hk]
      show get_appointment_slots env.now 3 ≠ []
      have hlen := get_appointment_slots_length env.now 3
      intro hnil
      rw [hnil] at hlen
      simp at hlen
    · simp only [storePut, if_neg hkey] at hk
      exact hinv k s hk ha

/-- Witness for claim C8: the invariant holds for the store left by a
concrete image message on the empty store. -/
theorem session_invariant_witness :
    StoreInv (storePut (fun _ => none) (sessionKey "s1" "+15550001111")
      ⟨true, get_appointment_slots 0 3⟩) :=
  session_invariant.1 ⟨CalOutcome.noService, EstOutcome.noApiKey, 0⟩
    ⟨"s1", "Shop One", none, "tok1"⟩ "+15550001111" "" ["http://img0"]
    (fun _ => none) (fun k s hk => absurd hk (by simp))
    (estimateReply ⟨"s1", "Shop One", none, "tok1"⟩
      (estimate_damage_from_images EstOutcome.noApiKey)
      (get_appointment_slots 0 3)) _ rfl

/-- Counterexample for claim C9: the session key is built by joining the
tenant id and the sender id with a colon, so the two distinct pairs
("a", "b:c") and ("a:b", "c") collide on the same store entry "a:b:c". -/
theorem session_key_collision :
    sessionKey "a" "b:c" = sessionKey "a:b" "c" ∧
    (("a", "b:c") : String × String) ≠ ("a:b", "c") := by
  exact ⟨rfl, by decide⟩

/-- Claim C9, amended: for one fixed sender, distinct tenant ids always
map to distinct session keys; a handler run never writes any store key
other than its own session key; and the reply depends on the store only
through the entry at its own session key — so two tenants with the same
sender never observe the state of the other.  (Distinct (tenant, sender)
pairs in full generality can collide when the tenant id itself contains
the colon separator.) -/
theorem tenant_isolation :
    (∀ t1 t2 s : String, t1 ≠ t2 → sessionKey t1 s ≠ sessionKey t2 s) ∧
    (∀ (env : Env) (shop : ShopConfig) (sender raw_body : String)
        (urls : List String) (sessions : Store) (reply : String) (st2 : Store),
      sms_webhook env shop sender raw_body urls sessions = .ok (reply, st2) →
      ∀ k, k ≠ sessionKey shop.id sender → st2 k = sessions k) ∧
    (∀ (env : Env) (shop : ShopConfig) (sender raw_body : String)
        (urls : List String) (sessions sessions2 : Store),
      sessions (sessionKey shop.id sender) =
        sessions2 (sessionKey shop.id sender) →
      (sms_webhook env shop sender raw_body urls sessions).map Prod.fst =
        (sms_webhook env shop sender raw_body urls sessions2).map Prod.fst) := by
  refine ⟨?_, ?_, ?_⟩
  · intro t1 t2 s hne heq
    apply hne
    have hd := congrArg String.data heq
    simp only [sessionKey, String.data_append] at hd
    have hd2 : t1.data ++ ([':'] ++ s.data) = t2.data ++ ([':'] ++ s.data) := by
      simpa [List.append_assoc] using hd
    exact String.ext (List.append_cancel_right hd2)
  · intro env shop sender raw_body urls sessions reply st2 h k hk
    rcases sms_webhook_store_cases env shop sender raw_body urls sessions reply st2 h
      with rfl | ⟨session, _, rfl⟩ | rfl
    · rfl
    · simp [storePut, hk]
    · simp [storePut, hk]
  · intro env shop sender raw_body urls sessions sessions2 h
    have hcongr := bookingAttempt_fst_congr env shop sender (pyStrip raw_body)
      sessions sessions2 h
    unfold sms_webhook
    cases hba1 : bookingAttempt env shop sender (pyStrip raw_body) sessions with
    | none =>
      cases hba2 : bookingAttempt env shop sender (pyStrip raw_body) sessions2 with
      | none => by_cases himg : urls = [] <;> simp [himg, Except.map]
      | some r2 => rw [hba1, hba2] at hcongr; exact absurd hcongr (by simp)
    | some r1 =>
      cases hba2 : bookingAttempt env shop sender (pyStrip raw_body) sessions2 with
      | none => rw [hba1, hba2] at hcongr; exact absurd hcongr (by simp)
      | some r2 =>
        rw [hba1, hba2] at hcongr
        simp at hcongr
        exact hcongr

/-- Witness for claim C9 (amended): two concrete distinct tenants with
the same sender get distinct session keys. -/
theorem tenant_isolation_witness :
    sessionKey "shopA" "+15550001111" ≠ sessionKey "shopB" "+15550001111" :=
  tenant_isolation.1 "shopA" "shopB" "+15550001111" (by decide)

/-- Claim C1 (recording the divergence of the code from the spec): with a
calendar service configured, a tenant calendar id present, and the
external insert call raising, the selection "1" on an awaiting session
makes the handler itself raise — no reply is produced and the session
stays awaiting — whereas the no-service outcome produces the booking
confirmation and the transition; so the calendar outcome does change the
reply, contradicting the specified absorption of calendar failures. -/
theorem calendar_failure_drops_reply :
    sms_webhook ⟨CalOutcome.raises, EstOutcome.noApiKey, 0⟩
        ⟨"s1", "Shop One", some "cal1", "tok1"⟩ "+15550001111" "1" []
        (storePut (fun _ => none) (sessionKey "s1" "+15550001111")
          ⟨true, [usPerDay + 9 * usPerHour]⟩) = .error () ∧
    sms_webhook ⟨CalOutcome.noService, EstOutcome.noApiKey, 0⟩
        ⟨"s1", "Shop One", some "cal1", "tok1"⟩ "+15550001111" "1" []
        (storePut (fun _ => none) (sessionKey "s1" "+15550001111")
          ⟨true, [usPerDay + 9 * usPerHour]⟩) =
      .ok (bookingReply (usPerDay + 9 * usPerHour),
        storePut (storePut (fun _ => none) (sessionKey "s1" "+15550001111")
          ⟨true, [usPerDay + 9 * usPerHour]⟩) (sessionKey "s1" "+15550001111")
          ⟨false, [usPerDay + 9 * usPerHour]⟩) := by
  constructor <;> rfl

end AutoShop
